import Mathlib

/-!
Shallow embedding of the pagos-ftf expense-approval workflow.

The data model and operations below are translated from the repository's
`f_cud.py` (create/update helpers for expenses, logs, roles) and
`f_read.py` (the duplicate-submission query), together with the UI
save handlers in `administrador.py` and `pages/solicitante.py` that the
claims reference.

Modelling conventions:
* the Supabase tables become lists inside a `DB` record; a `.update().eq(...)`
  call becomes a `List.map` touching every row with the matching id, and an
  `.insert` appends;
* monetary amounts are integer cents, so Python's `round(x, 2)` is the
  identity at this granularity;
* timestamps are integer seconds, `timedelta(days=d)` is `d * 86400`;
* fallible Python functions (those raising `ValueError`) return
  `Except String`, carrying the source's error message;
* a log's free-form JSON `details` dict becomes an association list of
  `JVal` values, mirroring the dict literals in the source.
-/

namespace PagosFtf

/-- JSON-ish value as stored in a log entry's `details` dict. -/
inductive JVal where
  | str (s : String)
  | int (n : Int)
  | bool (b : Bool)
  | null
deriving Repr, DecidableEq

/-- The `details` JSON object of an `expense_logs` row. -/
abbrev Details := List (String × JVal)

/-- A row of the `expenses` table (columns used by the code). -/
structure Expense where
  id : String
  requested_by : String
  supplier_id : String
  amount : Int
  category : String
  supporting_doc_key : String
  description : Option String
  status : String
  approved_by : Option String
  paid_by : Option String
  payment_doc_key : Option String
  payment_date : Option String
  created_at : Int
deriving Repr, DecidableEq

/-- A row of the `expense_logs` table. -/
structure LogEntry where
  expense_id : String
  actor_id : String
  action : String
  details : Details
deriving Repr, DecidableEq

/-- A row of the `expense_comments` table. -/
structure CommentRow where
  expense_id : String
  actor_id : String
  text : String
deriving Repr, DecidableEq

/-- The persistent store the operations act on. -/
structure DB where
  expenses : List Expense
  logs : List LogEntry
  comments : List CommentRow
deriving Repr, DecidableEq

def emptyDB : DB := ⟨[], [], []⟩

/-- Python `str.lower()` (over the string's characters). -/
def pyLower (s : String) : String := ⟨s.data.map Char.toLower⟩

/-- Python `str.strip()`: drop whitespace from both ends. -/
def pyStrip (s : String) : String :=
  ⟨((s.data.dropWhile Char.isWhitespace).reverse.dropWhile Char.isWhitespace).reverse⟩

/-- `f_cud.create_expense_log`: validates the three required fields
(Python truthiness: empty strings are falsy) then inserts one row. -/
def create_expense_log (db : DB) (expense_id actor_id action : String)
    (details : Details) : Except String DB :=
  if expense_id = "" ∨ actor_id = "" ∨ action = "" then
    .error "Faltan datos para crear el log."
  else
    .ok { db with logs := db.logs ++ [⟨expense_id, actor_id, action, details⟩] }

/-- `if comment: details["comment"] = comment` — `None` and `""` are falsy. -/
def commentDetails (comment : Option String) : Details :=
  match comment with
  | some c => if c = "" then [] else [("comment", JVal.str c)]
  | none => []

def VALID_FOR_APPROVER : List String := ["solicitado", "aprobado", "rechazado"]

/-- `f_cud.update_expense_status` (the later definition at line 211, which
shadows the earlier one): normalizes the status, rejects anything outside
`VALID_FOR_APPROVER`, updates the matching expense rows (setting
`approved_by` for `aprobado`/`rechazado`), then inserts one log. -/
def updApproverRow (expense_id actor_id ns : String) (e : Expense) : Expense :=
  if e.id = expense_id then
    { e with status := ns,
             approved_by :=
               if ns = "aprobado" ∨ ns = "rechazado" then some actor_id
               else e.approved_by }
  else e

def update_expense_status (db : DB) (expense_id actor_id new_status : String)
    (comment : Option String) : Except String DB :=
  let ns := pyLower (pyStrip new_status)
  if ns ∉ VALID_FOR_APPROVER then
    .error "Estado inválido para aprobador."
  else
    let expenses := db.expenses.map (updApproverRow expense_id actor_id ns)
    let details : Details :=
      [("kind", JVal.str "status_change"), ("new_status", JVal.str ns)]
        ++ commentDetails comment
    create_expense_log { db with expenses := expenses } expense_id actor_id
      "update" details

def paidRow (expense_id actor_id payment_doc_folder : String) (e : Expense) :
    Expense :=
  if e.id = expense_id then
    { e with status := "pagado",
             payment_doc_key := some (pyStrip payment_doc_folder),
             paid_by := some actor_id }
  else e

/-- `f_cud.mark_expense_as_paid`: validates the inputs, sets
`status`/`payment_doc_key`/`paid_by` on the matching rows, inserts one log.
Note the function has no `payment_date` parameter and never writes that
column. -/
def mark_expense_as_paid (db : DB) (expense_id actor_id payment_doc_folder : String)
    (comment : Option String) : Except String DB :=
  if expense_id = "" ∨ actor_id = "" ∨ pyStrip payment_doc_folder = "" then
    .error "Faltan datos para marcar como pagado."
  else
    let expenses := db.expenses.map (paidRow expense_id actor_id payment_doc_folder)
    let details : Details :=
      [("kind", JVal.str "status_change"), ("new_status", JVal.str "pagado"),
       ("payment_doc_folder", JVal.str payment_doc_folder)]
        ++ commentDetails comment
    create_expense_log { db with expenses := expenses } expense_id actor_id
      "update" details

/-- A write against the external store, in the order the code issues it. -/
inductive Effect where
  | insertExpense (id : String)
  | insertLog (expense_id action : String)
deriving Repr, DecidableEq

/-- The row `f_cud.create_expense` inserts: the payload dict plus the
table defaults (`status` defaults to `solicitado`; the nullable columns
start out null). `if description:` drops falsy (empty) descriptions. -/
def createPayload (requested_by supplier_id : String) (amount : Int)
    (category supporting_doc_key : String) (description : Option String)
    (new_id : String) (created_at : Int) : Expense :=
  { id := new_id
    requested_by := requested_by
    supplier_id := supplier_id
    amount := amount
    category := category
    supporting_doc_key := supporting_doc_key
    description := match description with
      | some d => if d = "" then none else some d
      | none => none
    status := "solicitado"
    approved_by := none
    paid_by := none
    payment_doc_key := none
    payment_date := none
    created_at := created_at }

/-- The `details` dict of the `create` log entry in `f_cud.create_expense`.
The raw `description` argument goes in as-is (possibly JSON null). -/
def createDetails (supplier_id : String) (amount : Int)
    (category supporting_doc_key : String) (description : Option String) : Details :=
  [("kind", JVal.str "create"),
   ("supplier_id", JVal.str supplier_id),
   ("amount", JVal.int amount),
   ("category", JVal.str category),
   ("supporting_doc_folder", JVal.str supporting_doc_key),
   ("description", match description with
      | some d => JVal.str d
      | none => JVal.null)]

/-- `f_cud.create_expense`: inserts the expense row (the store assigns
`new_id` and stamps `created_at`), then tries to insert one `create` log
inside `try/except Exception: pass`; the injected fault `log_write_fails`
models the store failing that second insert. Returns the updated store,
the value the function returns (`expense_id`), and the trace of store
writes it attempted, in order. -/
def create_expense (db : DB) (requested_by supplier_id : String) (amount : Int)
    (category supporting_doc_key : String) (description : Option String)
    (new_id : String) (created_at : Int) (log_write_fails : Bool) :
    DB × Option String × List Effect :=
  let payload := createPayload requested_by supplier_id amount category
    supporting_doc_key description new_id created_at
  let db1 : DB := { db with expenses := db.expenses ++ [payload] }
  let details := createDetails supplier_id amount category supporting_doc_key
    description
  if log_write_fails then
    (db1, some new_id, [.insertExpense new_id, .insertLog new_id "create"])
  else
    match create_expense_log db1 new_id requested_by "create" details with
    | .ok db2 => (db2, some new_id, [.insertExpense new_id, .insertLog new_id "create"])
    | .error _ => (db1, some new_id, [.insertExpense new_id])

/-- `f_cud.add_expense_comment`: validates, strips, inserts one comment row. -/
def add_expense_comment (db : DB) (expense_id actor_id text : String) :
    Except String DB :=
  if expense_id = "" ∨ actor_id = "" ∨ pyStrip text = "" then
    .error "Faltan datos para comentar."
  else
    .ok { db with comments := db.comments ++ [⟨expense_id, actor_id, pyStrip text⟩] }

/-! ### The lifecycle engine as a transition system

`Step db ev db'` holds when one successful engine call (one of
`create_expense`, `update_expense_status`, `mark_expense_as_paid`) takes the
store from `db` to `db'`; the event records which expense was touched and,
for a status change, the normalized target status.  `Reaches db tr` holds
when `db` is produced from the empty store by a sequence of such calls with
event trace `tr`. -/

inductive Event where
  | created (id : String)
  | statusChanged (id : String) (new_status : String)
  | paid (id : String)
deriving Repr, DecidableEq

inductive Step : DB → Event → DB → Prop where
  | create (db : DB) (requested_by supplier_id : String) (amount : Int)
      (category supporting_doc_key : String) (description : Option String)
      (new_id : String) (created_at : Int) (log_write_fails : Bool)
      (db' : DB) (oid : Option String) (tr : List Effect)
      (h : create_expense db requested_by supplier_id amount category
        supporting_doc_key description new_id created_at log_write_fails
        = (db', oid, tr)) :
      Step db (.created new_id) db'
  | update (db : DB) (expense_id actor_id new_status : String)
      (comment : Option String) (db' : DB)
      (h : update_expense_status db expense_id actor_id new_status comment
        = .ok db') :
      Step db (.statusChanged expense_id (pyLower (pyStrip new_status))) db'
  | paid (db : DB) (expense_id actor_id payment_doc_folder : String)
      (comment : Option String) (db' : DB)
      (h : mark_expense_as_paid db expense_id actor_id payment_doc_folder comment
        = .ok db') :
      Step db (.paid expense_id) db'

inductive Reaches : DB → List Event → Prop where
  | init : Reaches emptyDB []
  | step (db : DB) (tr : List Event) (ev : Event) (db' : DB)
      (hr : Reaches db tr) (hs : Step db ev db') : Reaches db' (tr ++ [ev])

/-! ### Duplicate-submission heuristic (`f_read.recent_similar_expenses`) -/

/-- The `order("created_at", desc=True)` ordering: newer rows first. -/
def createdDesc (a b : Expense) : Prop := b.created_at ≤ a.created_at

instance : DecidableRel createdDesc := fun a b =>
  inferInstanceAs (Decidable (b.created_at ≤ a.created_at))

instance : IsTotal Expense createdDesc :=
  ⟨fun a b => le_total b.created_at a.created_at⟩

instance : IsTrans Expense createdDesc :=
  ⟨fun _ _ _ hab hbc => le_trans hbc hab⟩

/-- The rows matched by the query's three filters: same supplier, same
amount, and `created_at >= since` where `since = now - timedelta(days=days)`.
`now` stands for `datetime.utcnow()`; amounts are in cents so the query's
`round(float(amount), 2)` is the identity. -/
def similarMatches (db : DB) (supplier_id : String) (amount now days : Int) :
    List Expense :=
  db.expenses.filter (fun e =>
    e.supplier_id = supplier_id ∧ e.amount = amount
      ∧ now - days * 86400 ≤ e.created_at)

/-- `f_read.recent_similar_expenses`: the matching rows, ordered by
`created_at` descending, limited to 20. -/
def recent_similar_expenses (db : DB) (supplier_id : String) (amount : Int)
    (now : Int) (days : Int := 30) : List Expense :=
  (List.insertionSort createdDesc
    (similarMatches db supplier_id amount now days)).take 20

/-! ### Roles (`f_cud.assign_role` / `f_cud.remove_role`) and the
administrator role-edit handler (`administrador.admin_editar_fragment`). -/

def VALID_ROLES : List String :=
  ["administrador", "solicitante", "aprobador", "pagador", "lector"]

/-- The `user_roles` table: (user_id, role) pairs. -/
abbrev RoleState := List (String × String)

/-- `f_cud.assign_role`: upsert of a single validated role. -/
def assign_role (st : RoleState) (user_id role : String) :
    Except String RoleState :=
  if user_id = "" then .error "Usuario inválido."
  else
    let role_es := pyLower (pyStrip role)
    if role_es ∉ VALID_ROLES then .error ("Rol inválido: " ++ role_es)
    else .ok (if (user_id, role_es) ∈ st then st else st ++ [(user_id, role_es)])

/-- `f_cud.remove_role`: delete the matching (user_id, role) rows; no-op if
absent. -/
def remove_role (st : RoleState) (user_id role : String) :
    Except String RoleState :=
  if user_id = "" then .error "Usuario inválido."
  else
    let role_es := pyLower (pyStrip role)
    if role_es ∉ VALID_ROLES then .error ("Rol inválido: " ++ role_es)
    else .ok (st.filter (fun p => ¬(p.1 = user_id ∧ p.2 = role_es)))

/-- Python's `sorted` over a set of role names. -/
def sortedRoles (l : List String) : List String :=
  List.insertionSort (· ≤ ·) l.dedup

/-- `for r in sorted(to_add): assign_role(...)` with exception propagation. -/
def applyAssigns (st : RoleState) (user_id : String) :
    List String → Except String RoleState
  | [] => .ok st
  | r :: rs => do
      let st' ← assign_role st user_id r
      applyAssigns st' user_id rs

/-- `for r in sorted(to_remove): remove_role(...)` with exception propagation. -/
def applyRemoves (st : RoleState) (user_id : String) :
    List String → Except String RoleState
  | [] => .ok st
  | r :: rs => do
      let st' ← remove_role st user_id r
      applyRemoves st' user_id rs

/-- The save handler of `administrador.admin_editar_fragment` (lines
227-253): diff the desired role set against the current one, guard the
administrator's own `administrador` role (warning + discard, not an error),
then apply the assigns and removes.  Returns the new `user_roles` state and
the warnings shown. -/
def admin_editar_save (st : RoleState) (my_id selected_id : String)
    (current desired : List String) : Except String (RoleState × List String) :=
  let to_add := sortedRoles (desired.filter (fun r => r ∉ current))
  let to_remove0 := (current.filter (fun r => r ∉ desired)).dedup
  let warnings :=
    if selected_id = my_id ∧ "administrador" ∈ to_remove0 then
      ["No puedes quitarte el rol 'administrador' a ti mismo."]
    else []
  let to_remove := sortedRoles
    (if selected_id = my_id then to_remove0.filter (fun r => r ≠ "administrador")
     else to_remove0)
  do
    let st1 ← applyAssigns st selected_id to_add
    let st2 ← applyRemoves st1 selected_id to_remove
    .ok (st2, warnings)

/-! ### The solicitante submission flow (`pages/solicitante.py`, the
`Enviar solicitud` handler at lines 80-116): field validation happens in
the page, before `create_expense` is ever called. -/

/-- Outcome of pressing `Enviar solicitud`: the updated store, the
`st.error` message if validation rejected the input, and the id of the
created expense if any. -/
def solicitud_enviar (db : DB) (user_id : String) (supplier_id : Option String)
    (amount : Int) (categoria : String) (has_file : Bool)
    (descripcion : Option String) (doc_key new_id : String) (created_at : Int) :
    DB × Option String × Option String :=
  if supplier_id = none then
    (db, some "Selecciona un proveedor.", none)
  else if amount ≤ 0 then
    (db, some "Ingresa un monto válido mayor a cero.", none)
  else if categoria = "" then
    (db, some "Selecciona una categoría.", none)
  else if ¬ has_file then
    (db, some "Adjunta el documento de respaldo.", none)
  else
    let r := create_expense db user_id (supplier_id.getD "") amount categoria
      doc_key descripcion new_id created_at false
    (r.1, none, r.2.1)

/-- `details.values()` contains the string `s` (used to ask whether a log
entry records a given status). -/
def detailsMentions (d : Details) (s : String) : Bool :=
  d.any (fun kv => kv.2 == JVal.str s)

/-! ## Inversion lemmas for the operations -/

theorem create_expense_log_ok {db : DB} {a b c : String} {d : Details} {db2 : DB}
    (h : create_expense_log db a b c d = .ok db2) :
    db2 = { db with logs := db.logs ++ [⟨a, b, c, d⟩] } := by
  unfold create_expense_log at h
  split at h
  · exact Except.noConfusion h
  · injection h with h
    exact h.symm

theorem update_expense_status_ok {db : DB} {id actor ns0 : String}
    {c : Option String} {db' : DB}
    (h : update_expense_status db id actor ns0 c = .ok db') :
    pyLower (pyStrip ns0) ∈ VALID_FOR_APPROVER ∧ id ≠ "" ∧ actor ≠ "" ∧
    db' = { db with
            expenses := db.expenses.map
              (updApproverRow id actor (pyLower (pyStrip ns0))),
            logs := db.logs ++ [⟨id, actor, "update",
              [("kind", JVal.str "status_change"),
               ("new_status", JVal.str (pyLower (pyStrip ns0)))]
                ++ commentDetails c⟩] } := by
  unfold update_expense_status at h
  dsimp only at h
  split at h
  · exact Except.noConfusion h
  · rename_i hns
    rw [not_not] at hns
    unfold create_expense_log at h
    split at h
    · exact Except.noConfusion h
    · rename_i hval
      push_neg at hval
      injection h with h
      exact ⟨hns, hval.1, hval.2.1, h.symm⟩

theorem mark_expense_as_paid_ok {db : DB} {id actor folder : String}
    {c : Option String} {db' : DB}
    (h : mark_expense_as_paid db id actor folder c = .ok db') :
    id ≠ "" ∧ actor ≠ "" ∧ pyStrip folder ≠ "" ∧
    db' = { db with
            expenses := db.expenses.map (paidRow id actor folder),
            logs := db.logs ++ [⟨id, actor, "update",
              [("kind", JVal.str "status_change"),
               ("new_status", JVal.str "pagado"),
               ("payment_doc_folder", JVal.str folder)]
                ++ commentDetails c⟩] } := by
  unfold mark_expense_as_paid at h
  dsimp only at h
  split at h
  · exact Except.noConfusion h
  · rename_i hval
    push_neg at hval
    unfold create_expense_log at h
    split at h
    · exact Except.noConfusion h
    · injection h with h
      exact ⟨hval.1, hval.2.1, hval.2.2, h.symm⟩

theorem create_expense_result (db : DB) (rb sid : String) (amt : Int)
    (cat doc : String) (desc : Option String) (nid : String) (ts : Int)
    (logf : Bool) :
    (create_expense db rb sid amt cat doc desc nid ts logf).2.1 = some nid ∧
    (create_expense db rb sid amt cat doc desc nid ts logf).1.expenses
      = db.expenses ++ [createPayload rb sid amt cat doc desc nid ts] ∧
    ((create_expense db rb sid amt cat doc desc nid ts logf).1.logs = db.logs ∨
     (create_expense db rb sid amt cat doc desc nid ts logf).1.logs
       = db.logs ++ [⟨nid, rb, "create", createDetails sid amt cat doc desc⟩]) := by
  unfold create_expense
  dsimp only
  split
  · exact ⟨rfl, rfl, Or.inl rfl⟩
  · split
    · rename_i db2 heq
      have h2 := create_expense_log_ok heq
      subst h2
      exact ⟨rfl, rfl, Or.inr rfl⟩
    · exact ⟨rfl, rfl, Or.inl rfl⟩

theorem create_expense_trace (db : DB) (rb sid : String) (amt : Int)
    (cat doc : String) (desc : Option String) (nid : String) (ts : Int)
    (logf : Bool) :
    ∃ rest, (create_expense db rb sid amt cat doc desc nid ts logf).2.2
        = Effect.insertExpense nid :: rest ∧
      ∀ ev ∈ rest, ev = Effect.insertLog nid "create" := by
  unfold create_expense
  dsimp only
  split
  · exact ⟨[Effect.insertLog nid "create"], rfl, by simp⟩
  · split
    · exact ⟨[Effect.insertLog nid "create"], rfl, by simp⟩
    · exact ⟨[], rfl, by simp⟩

theorem create_expense_log_write_fails (db : DB) (rb sid : String) (amt : Int)
    (cat doc : String) (desc : Option String) (nid : String) (ts : Int) :
    (create_expense db rb sid amt cat doc desc nid ts true).1.logs = db.logs := by
  unfold create_expense
  rfl

/-! ## C7 — creation inserts the row first; the log write is best-effort -/

/-- C7: in `create_expense` the audit-log write is issued strictly after the
expense row is inserted (the write trace starts with the expense insert and
everything after it is the `create` log write), and it is best-effort: when
the log write fails, the function still returns the new expense id, the
expense row is still present, and no log row is written. -/
theorem C7_log_after_insert_best_effort (db : DB) (rb sid : String) (amt : Int)
    (cat doc : String) (desc : Option String) (nid : String) (ts : Int)
    (logf : Bool) :
    (create_expense db rb sid amt cat doc desc nid ts logf).2.1 = some nid ∧
    createPayload rb sid amt cat doc desc nid ts
      ∈ (create_expense db rb sid amt cat doc desc nid ts logf).1.expenses ∧
    (∃ rest, (create_expense db rb sid amt cat doc desc nid ts logf).2.2
        = Effect.insertExpense nid :: rest ∧
      ∀ ev ∈ rest, ev = Effect.insertLog nid "create") ∧
    (logf = true →
      (create_expense db rb sid amt cat doc desc nid ts logf).1.logs = db.logs) := by
  obtain ⟨h1, h2, -⟩ := create_expense_result db rb sid amt cat doc desc nid ts logf
  refine ⟨h1, ?_, create_expense_trace db rb sid amt cat doc desc nid ts logf, ?_⟩
  · rw [h2]; simp
  · rintro rfl
    exact create_expense_log_write_fails db rb sid amt cat doc desc nid ts

theorem C7_witness :
    (create_expense emptyDB "u1" "s1" 100 "c" "d" none "e1" 0 true).2.1
        = some "e1" ∧
    (create_expense emptyDB "u1" "s1" 100 "c" "d" none "e1" 0 true).1.logs = [] :=
  ⟨(C7_log_after_insert_best_effort emptyDB "u1" "s1" 100 "c" "d" none "e1" 0 true).1,
   (C7_log_after_insert_best_effort emptyDB "u1" "s1" 100 "c" "d" none "e1" 0 true).2.2.2 rfl⟩

/-! ## C3 — the `pagado` transition never sets `payment_date`

The spec (§4.1) requires the `pagado` transition to set `paid_by`,
`payment_doc_key` and `payment_date`.  `f_cud.mark_expense_as_paid` sets the
first two but has no `payment_date` parameter and never writes that column —
even though both of its in-repo callers (`pagador.py` line 431 and
`pages/pagador.py` line 333) pass `payment_date=...` (and `payment_doc_key=...`)
keywords its signature does not accept. -/

/-- C3: a successful `mark_expense_as_paid` sets `status = "pagado"`,
`paid_by` and `payment_doc_key` on the matching expense, but leaves every
expense's `payment_date` exactly as it was: the payment date required by the
spec is never written. -/
theorem C3_payment_date_never_set (db : DB) (id actor folder : String)
    (c : Option String) (db' : DB)
    (h : mark_expense_as_paid db id actor folder c = .ok db') :
    db'.expenses.map Expense.payment_date
      = db.expenses.map Expense.payment_date ∧
    ∀ e' ∈ db'.expenses, e'.id = id →
      e'.status = "pagado" ∧ e'.paid_by = some actor ∧
      e'.payment_doc_key = some (pyStrip folder) := by
  obtain ⟨-, -, -, h4⟩ := mark_expense_as_paid_ok h
  subst h4
  constructor
  · rw [List.map_map]
    refine List.map_congr_left ?_
    intro e _
    unfold Function.comp paidRow
    split <;> rfl
  · intro e' he' hid
    obtain ⟨e, _, rfl⟩ := List.mem_map.mp he'
    unfold paidRow
    unfold paidRow at hid
    split
    · exact ⟨rfl, rfl, rfl⟩
    · rename_i hne
      split at hid
      · rename_i hcontra
        exact absurd hcontra hne
      · exact absurd hid hne

def C3db : DB := (create_expense emptyDB "u1" "s1" 100 "c" "d" none "e1" 0 false).1

def C3db' : DB :=
  ((mark_expense_as_paid C3db "e1" "u2" "pay" none).toOption).getD emptyDB

theorem C3_witness :
    C3db'.expenses.map Expense.payment_date = [none] ∧
    C3db'.expenses.map Expense.status = ["pagado"] := by
  have h := C3_payment_date_never_set C3db "e1" "u2" "pay" none C3db' (by rfl)
  constructor
  · rw [h.1]; decide
  · decide

/-! ## C1 — each transition writes one log entry, but the previous status
is not recorded in it -/

def C1db : DB :=
  { expenses := [createPayload "u1" "s1" 10000 "Viajes" "d" none "e1" 0]
    logs := []
    comments := [] }

def C1db' : DB :=
  ((update_expense_status C1db "e1" "u2" "aprobado" none).toOption).getD emptyDB

/-- C1 fails as stated: the transition `solicitado → aprobado` below writes
exactly one log entry, but that entry's details mention only the new status
`aprobado`; the previous status `solicitado` appears nowhere in them. -/
theorem C1_counterexample :
    C1db.expenses.map Expense.status = ["solicitado"] ∧
    update_expense_status C1db "e1" "u2" "aprobado" none = .ok C1db' ∧
    C1db'.logs.length = C1db.logs.length + 1 ∧
    C1db'.logs.map (fun l => detailsMentions l.details "solicitado") = [false] ∧
    C1db'.logs.map (fun l => detailsMentions l.details "aprobado") = [true] :=
  ⟨by decide, by rfl, by decide, by decide, by decide⟩

/-- C1 amended: every transition through the lifecycle engine
(`update_expense_status` or `mark_expense_as_paid`) appends exactly one
audit log entry, whose details record the new status of the expense (the
previous status is not recorded). -/
theorem C1_one_log_with_new_status :
    (∀ db id actor ns0 c db',
      update_expense_status db id actor ns0 c = .ok db' →
      ∃ entry, db'.logs = db.logs ++ [entry] ∧ entry.expense_id = id ∧
        entry.actor_id = actor ∧ entry.action = "update" ∧
        ("new_status", JVal.str (pyLower (pyStrip ns0))) ∈ entry.details) ∧
    (∀ db id actor folder c db',
      mark_expense_as_paid db id actor folder c = .ok db' →
      ∃ entry, db'.logs = db.logs ++ [entry] ∧ entry.expense_id = id ∧
        entry.actor_id = actor ∧ entry.action = "update" ∧
        ("new_status", JVal.str "pagado") ∈ entry.details) := by
  constructor
  · intro db id actor ns0 c db' h
    obtain ⟨-, -, -, h4⟩ := update_expense_status_ok h
    subst h4
    exact ⟨_, rfl, rfl, rfl, rfl, by simp⟩
  · intro db id actor folder c db' h
    obtain ⟨-, -, -, h4⟩ := mark_expense_as_paid_ok h
    subst h4
    exact ⟨_, rfl, rfl, rfl, rfl, by simp⟩

theorem C1_witness :
    ∃ entry, C1db'.logs = C1db.logs ++ [entry] ∧ entry.expense_id = "e1" ∧
      entry.actor_id = "u2" ∧ entry.action = "update" ∧
      ("new_status", JVal.str (pyLower (pyStrip "aprobado"))) ∈ entry.details :=
  C1_one_log_with_new_status.1 C1db "e1" "u2" "aprobado" none C1db' (by rfl)

/-! ## C5 — a same-status transition is not a no-op -/

def C5db : DB :=
  { expenses := [createPayload "u1" "s1" 10000 "Viajes" "d" none "e1" 0]
    logs := []
    comments := [] }

def C5db' : DB :=
  ((update_expense_status C5db "e1" "u2" "solicitado" none).toOption).getD emptyDB

/-- C5 fails as stated: requesting a transition to the expense's current
status (`solicitado`) with no comment and no payment fields still appends a
new audit log entry, so the operation is not a no-op. -/
theorem C5_counterexample :
    C5db.expenses.map Expense.status = ["solicitado"] ∧
    update_expense_status C5db "e1" "u2" "solicitado" none = .ok C5db' ∧
    C5db'.logs.length = C5db.logs.length + 1 :=
  ⟨by decide, by rfl, by decide⟩

/-- C5 amended: a same-status request through `update_expense_status` with
no comment leaves the expense records unchanged when that status is
`solicitado`, but it is not a no-op on the audit trail: exactly one new log
entry is still appended. -/
theorem C5_same_status_still_logs (db : DB) (id actor : String) (db' : DB)
    (hall : ∀ e ∈ db.expenses, e.id = id → e.status = "solicitado")
    (h : update_expense_status db id actor "solicitado" none = .ok db') :
    db'.expenses = db.expenses ∧ ∃ entry, db'.logs = db.logs ++ [entry] := by
  obtain ⟨-, -, -, h4⟩ := update_expense_status_ok h
  subst h4
  refine ⟨?_, _, rfl⟩
  have hid : pyLower (pyStrip "solicitado") = "solicitado" := rfl
  rw [hid]
  have : ∀ e ∈ db.expenses, updApproverRow id actor "solicitado" e = e := by
    intro e he
    unfold updApproverRow
    split
    · rename_i hmatch
      rw [if_neg (by decide)]
      have hst := hall e he hmatch
      rw [← hst]
    · rfl
  calc db.expenses.map (updApproverRow id actor "solicitado")
      = db.expenses.map (fun e => e) := List.map_congr_left this
    _ = db.expenses := List.map_id' db.expenses

theorem C5_witness :
    C5db'.expenses = C5db.expenses ∧ ∃ entry, C5db'.logs = C5db.logs ++ [entry] :=
  C5_same_status_still_logs C5db "e1" "u2" C5db' (by decide) (by rfl)

/-! ## C4 — `create_expense` does not validate the amount; the page does -/

/-- C4 fails as stated: calling `f_cud.create_expense` itself with
`amount = 0` raises no validation error — it returns the new id and inserts
an expense row with amount 0. -/
theorem C4_counterexample :
    (create_expense emptyDB "u1" "s1" 0 "c" "d" none "e1" 0 false).2.1
        = some "e1" ∧
    (create_expense emptyDB "u1" "s1" 0 "c" "d" none "e1" 0 false).1.expenses.map
        Expense.amount = [0] :=
  ⟨by decide, by decide⟩

/-- C4 amended: the `amount = 0` rejection lives in the solicitante
submission flow, which errors with "Ingresa un monto válido mayor a cero."
and leaves the store untouched before `create_expense` is ever called for
any `amount ≤ 0`; `create_expense` itself, with amount 150.00 (15000
cents), a supplier and a non-empty document key, succeeds: it returns the
new id, inserts the expense with status `solicitado`, and appends exactly
one `create` log entry for it. -/
theorem C4_validation_in_page_create_ok :
    (∀ db user sup (amount : Int) cat descr key nid ts, amount ≤ 0 →
      solicitud_enviar db user (some sup) amount cat true descr key nid ts
        = (db, some "Ingresa un monto válido mayor a cero.", none)) ∧
    (∀ db rb sid cat doc desc nid ts, rb ≠ "" → nid ≠ "" →
      (create_expense db rb sid 15000 cat doc desc nid ts false).2.1
          = some nid ∧
      createPayload rb sid 15000 cat doc desc nid ts
        ∈ (create_expense db rb sid 15000 cat doc desc nid ts false).1.expenses ∧
      (createPayload rb sid 15000 cat doc desc nid ts).status = "solicitado" ∧
      (create_expense db rb sid 15000 cat doc desc nid ts false).1.logs
        = db.logs ++ [⟨nid, rb, "create", createDetails sid 15000 cat doc desc⟩]) := by
  constructor
  · intro db user sup amount cat descr key nid ts hle
    unfold solicitud_enviar
    rw [if_neg (by simp), if_pos hle]
  · intro db rb sid cat doc desc nid ts hrb hnid
    obtain ⟨h1, h2, -⟩ := create_expense_result db rb sid 15000 cat doc desc nid ts false
    refine ⟨h1, by rw [h2]; simp, rfl, ?_⟩
    unfold create_expense
    dsimp only
    rw [if_neg (by simp)]
    have hlog : create_expense_log
        { db with expenses := db.expenses ++ [createPayload rb sid 15000 cat doc desc nid ts] }
        nid rb "create" (createDetails sid 15000 cat doc desc)
        = .ok { db with
                expenses := db.expenses ++ [createPayload rb sid 15000 cat doc desc nid ts],
                logs := db.logs ++ [⟨nid, rb, "create", createDetails sid 15000 cat doc desc⟩] } := by
      unfold create_expense_log
      rw [if_neg (by simp [hnid, hrb])]
    rw [hlog]

theorem C4_witness :
    solicitud_enviar emptyDB "u1" (some "s1") 0 "c" true none "d" "e1" 7
        = (emptyDB, some "Ingresa un monto válido mayor a cero.", none) ∧
    (create_expense emptyDB "u1" "s1" 15000 "c" "d" none "e1" 7 false).2.1
        = some "e1" :=
  ⟨(C4_validation_in_page_create_ok.1 emptyDB "u1" "s1" 0 "c" none "d" "e1" 7
      (by decide)),
   (C4_validation_in_page_create_ok.2 emptyDB "u1" "s1" "c" "d" none "e1" 7
      (by decide) (by decide)).1⟩

/-! ## Row-update helper lemmas -/

theorem updApproverRow_id (id actor ns : String) (e : Expense) :
    (updApproverRow id actor ns e).id = e.id := by
  unfold updApproverRow; split <;> rfl

theorem paidRow_id (id actor folder : String) (e : Expense) :
    (paidRow id actor folder e).id = e.id := by
  unfold paidRow; split <;> rfl

theorem paidRow_approved_by (id actor folder : String) (e : Expense) :
    (paidRow id actor folder e).approved_by = e.approved_by := by
  unfold paidRow; split <;> rfl

theorem updApproverRow_approved_by_ne {e : Expense} (id actor ns : String)
    (h : e.approved_by ≠ none) :
    (updApproverRow id actor ns e).approved_by ≠ none := by
  unfold updApproverRow
  split
  · dsimp only
    split
    · simp
    · exact h
  · exact h

/-! ## C2 — `payment_doc_key` is not cleared when leaving `pagado` -/

def C2db1 : DB := (create_expense emptyDB "u1" "s1" 100 "c" "d" none "e1" 0 false).1

def C2db2 : DB :=
  ((mark_expense_as_paid C2db1 "e1" "u2" "pay" none).toOption).getD emptyDB

def C2db3 : DB :=
  ((update_expense_status C2db2 "e1" "u3" "aprobado" none).toOption).getD emptyDB

theorem C2_reaches_db2 : Reaches C2db2 [Event.created "e1", Event.paid "e1"] :=
  Reaches.step C2db1 [Event.created "e1"] (Event.paid "e1") C2db2
    (Reaches.step emptyDB [] (Event.created "e1") C2db1
      Reaches.init
      (Step.create emptyDB "u1" "s1" 100 "c" "d" none "e1" 0 false
        C2db1 (some "e1")
        [Effect.insertExpense "e1", Effect.insertLog "e1" "create"] (by rfl)))
    (Step.paid C2db1 "e1" "u2" "pay" none C2db2 (by rfl))

/-- C2 fails as stated: the store below is reachable through a
`create_expense`, a `mark_expense_as_paid` and a final
`update_expense_status` back to `aprobado`, yet its expense has
`payment_doc_key = some "pay"` while its status is not `pagado` — the
engine never clears the payment document key when leaving `pagado`. -/
theorem C2_counterexample :
    Reaches C2db3
      [Event.created "e1", Event.paid "e1", Event.statusChanged "e1" "aprobado"] ∧
    C2db3.expenses.map Expense.status = ["aprobado"] ∧
    C2db3.expenses.map Expense.payment_doc_key = [some "pay"] := by
  refine ⟨?_, by decide, by decide⟩
  exact Reaches.step C2db2 [Event.created "e1", Event.paid "e1"]
    (Event.statusChanged "e1" "aprobado") C2db3 C2_reaches_db2
    (Step.update C2db2 "e1" "u3" "aprobado" none C2db3 (by rfl))

/-- C2 amended: only the forward direction of the biconditional holds for
every reachable store: an expense whose status is `pagado` has a non-null
`payment_doc_key`.  The converse fails because a later transition away from
`pagado` leaves `payment_doc_key` set. -/
theorem C2_paid_implies_doc_key :
    ∀ db tr, Reaches db tr → ∀ e ∈ db.expenses,
      e.status = "pagado" → e.payment_doc_key ≠ none := by
  intro db tr h
  induction h with
  | init => intro e he _; simp [emptyDB] at he
  | step db tr ev db' hr hs ih =>
    intro e' he' hst
    cases hs with
    | create rb sid amt cat doc desc nid ts logf db2 oid trc heq =>
      have hexp : db'.expenses
          = db.expenses ++ [createPayload rb sid amt cat doc desc nid ts] := by
        have h2 := (create_expense_result db rb sid amt cat doc desc nid ts logf).2.1
        rw [heq] at h2
        exact h2
      rw [hexp] at he'
      rcases List.mem_append.mp he' with hmem | hmem
      · exact ih e' hmem hst
      · rw [List.mem_singleton.mp hmem] at hst
        have hsol : (createPayload rb sid amt cat doc desc nid ts).status
            = "solicitado" := rfl
        rw [hsol] at hst
        exact absurd hst (by decide)
    | update id actor ns0 c db2 heq =>
      obtain ⟨hns, -, -, h4⟩ := update_expense_status_ok heq
      rw [h4] at he'
      obtain ⟨e, hmem, rfl⟩ := List.mem_map.mp he'
      by_cases hid : e.id = id
      · have hrow : (updApproverRow id actor (pyLower (pyStrip ns0)) e).status
            = pyLower (pyStrip ns0) := by
          unfold updApproverRow; rw [if_pos hid]
        rw [hrow] at hst
        rw [hst] at hns
        exact absurd hns (by decide)
      · have hrow : updApproverRow id actor (pyLower (pyStrip ns0)) e = e := by
          unfold updApproverRow; rw [if_neg hid]
        rw [hrow] at hst ⊢
        exact ih e hmem hst
    | paid id actor folder c db2 heq =>
      obtain ⟨-, -, -, h4⟩ := mark_expense_as_paid_ok heq
      rw [h4] at he'
      obtain ⟨e, hmem, rfl⟩ := List.mem_map.mp he'
      by_cases hid : e.id = id
      · have hrow : (paidRow id actor folder e).payment_doc_key
            = some (pyStrip folder) := by
          unfold paidRow; rw [if_pos hid]
        rw [hrow]
        simp
      · have hrow : paidRow id actor folder e = e := by
          unfold paidRow; rw [if_neg hid]
        rw [hrow] at hst ⊢
        exact ih e hmem hst

def C2exp : Expense :=
  paidRow "e1" "u2" "pay" (createPayload "u1" "s1" 100 "c" "d" none "e1" 0)

theorem C2_witness : C2exp.payment_doc_key ≠ none :=
  C2_paid_implies_doc_key C2db2 [Event.created "e1", Event.paid "e1"]
    C2_reaches_db2 C2exp (by decide) (by decide)

/-! ## C6 — provenance and monotonicity of `approved_by` -/

/-- C6: (1) in every reachable store, an expense with non-null `approved_by`
has had some earlier transition to `aprobado` or `rechazado`; (2) no single
engine operation ever clears a non-null `approved_by` (rows are preserved
positionally by every step). -/
theorem C6_approved_by_provenance_monotone :
    (∀ db tr, Reaches db tr → ∀ e ∈ db.expenses, e.approved_by ≠ none →
      ∃ s, Event.statusChanged e.id s ∈ tr ∧ (s = "aprobado" ∨ s = "rechazado")) ∧
    (∀ db ev db', Step db ev db' → ∀ i : Nat, ∀ e e' : Expense,
      db.expenses[i]? = some e → db'.expenses[i]? = some e' →
      e.approved_by ≠ none → e'.approved_by ≠ none) := by
  constructor
  · intro db tr h
    induction h with
    | init => intro e he _; simp [emptyDB] at he
    | step db tr ev db' hr hs ih =>
      intro e' he' hne
      cases hs with
      | create rb sid amt cat doc desc nid ts logf db2 oid trc heq =>
        have hexp : db'.expenses
            = db.expenses ++ [createPayload rb sid amt cat doc desc nid ts] := by
          have h2 := (create_expense_result db rb sid amt cat doc desc nid ts logf).2.1
          rw [heq] at h2
          exact h2
        rw [hexp] at he'
        rcases List.mem_append.mp he' with hmem | hmem
        · obtain ⟨s, hsmem, hsor⟩ := ih e' hmem hne
          exact ⟨s, List.mem_append_left _ hsmem, hsor⟩
        · rw [List.mem_singleton.mp hmem] at hne
          exact absurd rfl hne
      | update id actor ns0 c db2 heq =>
        obtain ⟨hns, -, -, h4⟩ := update_expense_status_ok heq
        rw [h4] at he'
        obtain ⟨e, hmem, rfl⟩ := List.mem_map.mp he'
        by_cases hid : e.id = id
        · by_cases hstat : pyLower (pyStrip ns0) = "aprobado"
              ∨ pyLower (pyStrip ns0) = "rechazado"
          · refine ⟨pyLower (pyStrip ns0), ?_, hstat⟩
            have hrid : (updApproverRow id actor (pyLower (pyStrip ns0)) e).id = id := by
              rw [updApproverRow_id, hid]
            rw [hrid]
            exact List.mem_append_right _ (List.mem_singleton.mpr rfl)
          · have hrow : (updApproverRow id actor (pyLower (pyStrip ns0)) e).approved_by
                = e.approved_by := by
              unfold updApproverRow
              rw [if_pos hid]
              dsimp only
              rw [if_neg hstat]
            rw [hrow] at hne
            obtain ⟨s, hsmem, hsor⟩ := ih e hmem hne
            refine ⟨s, ?_, hsor⟩
            rw [updApproverRow_id, hid]
            rw [hid] at hsmem
            exact List.mem_append_left _ hsmem
        · have hrow : updApproverRow id actor (pyLower (pyStrip ns0)) e = e := by
            unfold updApproverRow; rw [if_neg hid]
          rw [hrow] at hne ⊢
          obtain ⟨s, hsmem, hsor⟩ := ih e hmem hne
          exact ⟨s, List.mem_append_left _ hsmem, hsor⟩
      | paid id actor folder c db2 heq =>
        obtain ⟨-, -, -, h4⟩ := mark_expense_as_paid_ok heq
        rw [h4] at he'
        obtain ⟨e, hmem, rfl⟩ := List.mem_map.mp he'
        rw [paidRow_approved_by] at hne
        obtain ⟨s, hsmem, hsor⟩ := ih e hmem hne
        refine ⟨s, ?_, hsor⟩
        rw [paidRow_id]
        exact List.mem_append_left _ hsmem
  · intro db ev db' hs i e e' he he' hne
    cases hs with
    | create rb sid amt cat doc desc nid ts logf db2 oid trc heq =>
      have hexp : db'.expenses
          = db.expenses ++ [createPayload rb sid amt cat doc desc nid ts] := by
        have h2 := (create_expense_result db rb sid amt cat doc desc nid ts logf).2.1
        rw [heq] at h2
        exact h2
      have hlt : i < db.expenses.length := by
        by_contra hge
        rw [List.getElem?_eq_none (Nat.le_of_not_lt hge)] at he
        exact Option.noConfusion he
      rw [hexp, List.getElem?_append_left hlt, he] at he'
      injection he' with he'
      rw [← he']
      exact hne
    | update id actor ns0 c db2 heq =>
      obtain ⟨-, -, -, h4⟩ := update_expense_status_ok heq
      rw [h4] at he'
      rw [List.getElem?_map, he, Option.map_some'] at he'
      injection he' with he'
      rw [← he']
      exact updApproverRow_approved_by_ne id actor (pyLower (pyStrip ns0)) hne
    | paid id actor folder c db2 heq =>
      obtain ⟨-, -, -, h4⟩ := mark_expense_as_paid_ok heq
      rw [h4] at he'
      rw [List.getElem?_map, he, Option.map_some'] at he'
      injection he' with he'
      rw [← he', paidRow_approved_by]
      exact hne

def C6db1 : DB := (create_expense emptyDB "u1" "s1" 100 "c" "d" none "e1" 0 false).1

def C6db2 : DB :=
  ((update_expense_status C6db1 "e1" "u2" "aprobado" none).toOption).getD emptyDB

def C6tr : List Event := [Event.created "e1", Event.statusChanged "e1" "aprobado"]

theorem C6_reaches_db2 : Reaches C6db2 C6tr :=
  Reaches.step C6db1 [Event.created "e1"] (Event.statusChanged "e1" "aprobado")
    C6db2
    (Reaches.step emptyDB [] (Event.created "e1") C6db1
      Reaches.init
      (Step.create emptyDB "u1" "s1" 100 "c" "d" none "e1" 0 false
        C6db1 (some "e1")
        [Effect.insertExpense "e1", Effect.insertLog "e1" "create"] (by rfl)))
    (Step.update C6db1 "e1" "u2" "aprobado" none C6db2 (by rfl))

def C6exp : Expense :=
  updApproverRow "e1" "u2" "aprobado" (createPayload "u1" "s1" 100 "c" "d" none "e1" 0)

theorem C6_witness :
    ∃ s, Event.statusChanged C6exp.id s ∈ C6tr ∧ (s = "aprobado" ∨ s = "rechazado") :=
  C6_approved_by_provenance_monotone.1 C6db2 C6tr C6_reaches_db2 C6exp
    (by decide) (by decide)

theorem sanity_create_then_approve :
    update_expense_status
      ((create_expense emptyDB "u1" "s1" 15000 "Viajes" "doc1" none "e1" 100 false).1)
      "e1" "u2" "aprobado" none
    = .ok
      { expenses := [{ createPayload "u1" "s1" 15000 "Viajes" "doc1" none "e1" 100 with
                       status := "aprobado", approved_by := some "u2" }]
        logs := [⟨"e1", "u1", "create", createDetails "s1" 15000 "Viajes" "doc1" none⟩,
                 ⟨"e1", "u2", "update",
                  [("kind", JVal.str "status_change"), ("new_status", JVal.str "aprobado")]⟩]
        comments := [] } := by rfl


/-! ## C8 / C10 — the duplicate-submission heuristic -/

theorem mem_recent_similar_of {db : DB} {S : String} {A now days : Int}
    {e : Expense} (hlen : (similarMatches db S A now days).length ≤ 20)
    (he : e ∈ similarMatches db S A now days) :
    e ∈ recent_similar_expenses db S A now days := by
  unfold recent_similar_expenses
  rw [List.take_of_length_le]
  · exact (List.perm_insertionSort createdDesc _).mem_iff.mpr he
  · rw [(List.perm_insertionSort createdDesc _).length_eq]
    exact hlen

theorem recent_similar_subset {db : DB} {S : String} {A now days : Int}
    {e : Expense} (he : e ∈ recent_similar_expenses db S A now days) :
    e ∈ similarMatches db S A now days := by
  unfold recent_similar_expenses at he
  exact (List.perm_insertionSort createdDesc _).mem_iff.mp
    (List.mem_of_mem_take he)

/-- C8: with the 30-day window, an expense with the queried supplier, an
amount exactly equal (in cents) to the queried amount, and a creation time
29 days before `now` is returned (whenever the matches fit in the 20-row
limit), while any expense created 31 days before `now`, or whose amount
differs by one cent, is excluded. -/
theorem C8_duplicate_window (db : DB) (S : String) (A now : Int) (e : Expense)
    (he : e ∈ db.expenses) (hs : e.supplier_id = S) (ha : e.amount = A)
    (ht : e.created_at = now - 29 * 86400)
    (hlen : (similarMatches db S A now 30).length ≤ 20) :
    e ∈ recent_similar_expenses db S A now 30 ∧
    (∀ e31 ∈ db.expenses, e31.created_at = now - 31 * 86400 →
      e31 ∉ recent_similar_expenses db S A now 30) ∧
    (∀ ed ∈ db.expenses, ed.amount = A + 1 ∨ ed.amount = A - 1 →
      ed ∉ recent_similar_expenses db S A now 30) := by
  refine ⟨?_, ?_, ?_⟩
  · apply mem_recent_similar_of hlen
    unfold similarMatches
    rw [List.mem_filter]
    refine ⟨he, ?_⟩
    rw [decide_eq_true_eq]
    exact ⟨hs, ha, by omega⟩
  · intro e31 _ ht31 hin
    have h2 := recent_similar_subset hin
    unfold similarMatches at h2
    rw [List.mem_filter] at h2
    have h3 := of_decide_eq_true h2.2
    have h4 := h3.2.2
    omega
  · intro ed _ hda hin
    have h2 := recent_similar_subset hin
    unfold similarMatches at h2
    rw [List.mem_filter] at h2
    have h3 := of_decide_eq_true h2.2
    have h4 := h3.2.1
    omega

def C8e29 : Expense := createPayload "u" "s1" 100 "c" "d" none "a" ((-29) * 86400)

def C8e31 : Expense := createPayload "u" "s1" 100 "c" "d" none "b" ((-31) * 86400)

def C8ed : Expense := createPayload "u" "s1" 101 "c" "d" none "x" ((-1) * 86400)

def C8db : DB := { expenses := [C8e29, C8e31, C8ed], logs := [], comments := [] }

theorem C8_witness :
    C8e29 ∈ recent_similar_expenses C8db "s1" 100 0 30 ∧
    C8e31 ∉ recent_similar_expenses C8db "s1" 100 0 30 ∧
    C8ed ∉ recent_similar_expenses C8db "s1" 100 0 30 := by
  have h := C8_duplicate_window C8db "s1" 100 0 C8e29 (by decide) (by decide)
    (by decide) (by decide) (by decide)
  exact ⟨h.1, h.2.1 C8e31 (by decide) (by decide), h.2.2 C8ed (by decide) (by decide)⟩

/-- C10: the heuristic returns at most 20 rows, every returned row matches
the supplier/amount/window filters, rows come newest first
(`created_at`-descending), exactly 20 rows come back when more than 20
match, and every match left out is no newer than any returned row. -/
theorem C10_limit_and_order (db : DB) (S : String) (A now days : Int) :
    (recent_similar_expenses db S A now days).length ≤ 20 ∧
    List.Sorted createdDesc (recent_similar_expenses db S A now days) ∧
    (∀ e ∈ recent_similar_expenses db S A now days,
      e ∈ similarMatches db S A now days) ∧
    (20 < (similarMatches db S A now days).length →
      (recent_similar_expenses db S A now days).length = 20) ∧
    (∀ e ∈ recent_similar_expenses db S A now days,
      ∀ e' ∈ similarMatches db S A now days,
        e' ∉ recent_similar_expenses db S A now days →
          e'.created_at ≤ e.created_at) := by
  refine ⟨?_, ?_, ?_, ?_, ?_⟩
  · unfold recent_similar_expenses
    rw [List.length_take]
    exact Nat.min_le_left _ _
  · unfold recent_similar_expenses
    exact (List.sorted_insertionSort createdDesc _).sublist
      (List.take_sublist _ _)
  · intro e he
    exact recent_similar_subset he
  · intro hgt
    unfold recent_similar_expenses
    rw [List.length_take, (List.perm_insertionSort createdDesc _).length_eq]
    omega
  · intro e hein e' hematch hnotin
    have hsorted := List.sorted_insertionSort createdDesc
      (similarMatches db S A now days)
    have hsplit := List.take_append_drop 20
      (List.insertionSort createdDesc (similarMatches db S A now days))
    rw [← hsplit] at hsorted
    have hpw := (List.pairwise_append.mp hsorted).2.2
    have he'sort : e' ∈ List.insertionSort createdDesc
        (similarMatches db S A now days) :=
      (List.perm_insertionSort createdDesc _).mem_iff.mpr hematch
    rw [← hsplit] at he'sort
    rcases List.mem_append.mp he'sort with hcase | hcase
    · exact absurd hcase hnotin
    · exact hpw e hein e' hcase

def C10db : DB :=
  { expenses := (List.range 25).map
      (fun i => createPayload "u" "s1" 100 "c" "d" none "e" (Int.ofNat i))
    logs := []
    comments := [] }

theorem C10_witness :
    (recent_similar_expenses C10db "s1" 100 100 30).length = 20 ∧
    20 < (similarMatches C10db "s1" 100 100 30).length := by
  have h := C10_limit_and_order C10db "s1" 100 100 30
  exact ⟨h.2.2.2.1 (by decide), by decide⟩


/-! ## C9 — role edit: everything removable except one's own `administrador` -/

theorem role_norm_of_valid {r : String} (h : r ∈ VALID_ROLES) :
    pyLower (pyStrip r) = r := by
  fin_cases h <;> rfl

theorem mem_sortedRoles {a : String} {l : List String} :
    a ∈ sortedRoles l ↔ a ∈ l := by
  unfold sortedRoles
  rw [(List.perm_insertionSort _ _).mem_iff]
  exact List.mem_dedup

theorem assign_role_ok {st : RoleState} {uid r : String}
    (hu : uid ≠ "") (hr : r ∈ VALID_ROLES) :
    assign_role st uid r
      = .ok (if (uid, r) ∈ st then st else st ++ [(uid, r)]) := by
  unfold assign_role
  rw [if_neg hu]
  dsimp only
  rw [role_norm_of_valid hr, if_neg (not_not.mpr hr)]

theorem remove_role_ok {st : RoleState} {uid r : String}
    (hu : uid ≠ "") (hr : r ∈ VALID_ROLES) :
    remove_role st uid r
      = .ok (st.filter (fun p => ¬(p.1 = uid ∧ p.2 = r))) := by
  unfold remove_role
  rw [if_neg hu]
  dsimp only
  rw [role_norm_of_valid hr, if_neg (not_not.mpr hr)]

theorem applyAssigns_ok {uid : String} (hu : uid ≠ "") :
    ∀ (rs : List String), (∀ r ∈ rs, r ∈ VALID_ROLES) → ∀ st : RoleState,
      ∃ st', applyAssigns st uid rs = .ok st' ∧
        (∀ p ∈ st, p ∈ st') ∧
        (∀ p ∈ st', p ∈ st ∨ (p.1 = uid ∧ p.2 ∈ rs)) := by
  intro rs
  induction rs with
  | nil =>
    intro _ st
    exact ⟨st, rfl, fun p hp => hp, fun p hp => Or.inl hp⟩
  | cons r rs ih =>
    intro hval st
    have hr : r ∈ VALID_ROLES := hval r (List.mem_cons_self r rs)
    have hrs : ∀ x ∈ rs, x ∈ VALID_ROLES :=
      fun x hx => hval x (List.mem_cons_of_mem r hx)
    obtain ⟨st', hrun, hmono, hsub⟩ :=
      ih hrs (if (uid, r) ∈ st then st else st ++ [(uid, r)])
    refine ⟨st', ?_, ?_, ?_⟩
    · simp only [applyAssigns]
      rw [assign_role_ok hu hr]
      exact hrun
    · intro p hp
      apply hmono
      split
      · exact hp
      · exact List.mem_append_left _ hp
    · intro p hp
      rcases hsub p hp with hin | ⟨h1, h2⟩
      · by_cases hmem : (uid, r) ∈ st
        · rw [if_pos hmem] at hin
          exact Or.inl hin
        · rw [if_neg hmem] at hin
          rcases List.mem_append.mp hin with hin | hin
          · exact Or.inl hin
          · rw [List.mem_singleton.mp hin]
            exact Or.inr ⟨rfl, List.mem_cons_self r rs⟩
      · exact Or.inr ⟨h1, List.mem_cons_of_mem r h2⟩

theorem applyRemoves_ok {uid : String} (hu : uid ≠ "") :
    ∀ (rs : List String), (∀ r ∈ rs, r ∈ VALID_ROLES) → ∀ st : RoleState,
      ∃ st', applyRemoves st uid rs = .ok st' ∧
        (∀ p ∈ st', p ∈ st) ∧
        (∀ r ∈ rs, ∀ p ∈ st', ¬(p.1 = uid ∧ p.2 = r)) ∧
        (∀ p ∈ st, (p.1 = uid → p.2 ∉ rs) → p ∈ st') := by
  intro rs
  induction rs with
  | nil =>
    intro _ st
    exact ⟨st, rfl, fun p hp => hp,
      fun r hr => absurd hr (List.not_mem_nil r), fun p hp _ => hp⟩
  | cons r rs ih =>
    intro hval st
    have hr : r ∈ VALID_ROLES := hval r (List.mem_cons_self r rs)
    have hrs : ∀ x ∈ rs, x ∈ VALID_ROLES :=
      fun x hx => hval x (List.mem_cons_of_mem r hx)
    obtain ⟨st', hrun, hsub, hgone, hkeep⟩ :=
      ih hrs (st.filter (fun p => ¬(p.1 = uid ∧ p.2 = r)))
    refine ⟨st', ?_, ?_, ?_, ?_⟩
    · simp only [applyRemoves]
      rw [remove_role_ok hu hr]
      exact hrun
    · intro p hp
      exact List.mem_of_mem_filter (hsub p hp)
    · intro r' hr' p hp
      rcases List.mem_cons.mp hr' with rfl | hmem
      · have h1 := hsub p hp
        rw [List.mem_filter] at h1
        exact of_decide_eq_true h1.2
      · exact hgone r' hmem p hp
    · intro p hp hcond
      apply hkeep
      · rw [List.mem_filter]
        refine ⟨hp, ?_⟩
        rw [decide_eq_true_eq]
        rintro ⟨h1, h2⟩
        exact (hcond h1) (h2 ▸ List.mem_cons_self r rs)
      · intro h1 hmem
        exact (hcond h1) (List.mem_cons_of_mem r hmem)

/-- C9: saving a role edit succeeds (no error) whenever the involved user
ids are non-empty and the role lists are valid roles; every role the
administrator un-checked is removed from the selected user — except that
un-checking their own `administrador` role is discarded with exactly the
warning "No puedes quitarte el rol 'administrador' a ti mismo." and the
`(my_id, administrador)` assignment survives. -/
theorem C9_role_edit_guard (st : RoleState) (my_id selected_id : String)
    (current desired : List String)
    (hsel : selected_id ≠ "")
    (hcur : ∀ r ∈ current, r ∈ VALID_ROLES)
    (hdes : ∀ r ∈ desired, r ∈ VALID_ROLES) :
    ∃ st' ws,
      admin_editar_save st my_id selected_id current desired = .ok (st', ws) ∧
      (∀ r ∈ current, r ∉ desired → ¬(selected_id = my_id ∧ r = "administrador") →
        (selected_id, r) ∉ st') ∧
      (selected_id = my_id → "administrador" ∈ current →
        "administrador" ∉ desired →
        ws = ["No puedes quitarte el rol 'administrador' a ti mismo."] ∧
        ((my_id, "administrador") ∈ st → (my_id, "administrador") ∈ st')) := by
  have hta_valid : ∀ r ∈ sortedRoles (desired.filter (fun r => r ∉ current)),
      r ∈ VALID_ROLES := by
    intro r hrr
    rw [mem_sortedRoles] at hrr
    exact hdes r (List.mem_of_mem_filter hrr)
  have htr_valid : ∀ r ∈ sortedRoles
      (if selected_id = my_id then
        ((current.filter (fun r => r ∉ desired)).dedup).filter
          (fun r => r ≠ "administrador")
       else (current.filter (fun r => r ∉ desired)).dedup),
      r ∈ VALID_ROLES := by
    intro r hrr
    rw [mem_sortedRoles] at hrr
    split at hrr
    · exact hcur r (List.mem_of_mem_filter
        (List.mem_dedup.mp (List.mem_of_mem_filter hrr)))
    · exact hcur r (List.mem_of_mem_filter (List.mem_dedup.mp hrr))
  obtain ⟨st1, hrun1, hmono1, hsub1⟩ :=
    applyAssigns_ok hsel (sortedRoles (desired.filter (fun r => r ∉ current)))
      hta_valid st
  obtain ⟨st2, hrun2, hsub2, hgone2, hkeep2⟩ :=
    applyRemoves_ok hsel _ htr_valid st1
  refine ⟨st2,
    (if selected_id = my_id
        ∧ "administrador" ∈ (current.filter (fun r => r ∉ desired)).dedup then
      ["No puedes quitarte el rol 'administrador' a ti mismo."] else []),
    ?_, ?_, ?_⟩
  · unfold admin_editar_save
    dsimp only
    rw [hrun1]
    show applyRemoves st1 selected_id _ >>= _ = _
    rw [hrun2]
    rfl
  · intro r hrcur hrdes hguard
    have hrmem : r ∈ sortedRoles
        (if selected_id = my_id then
          ((current.filter (fun r => r ∉ desired)).dedup).filter
            (fun r => r ≠ "administrador")
         else (current.filter (fun r => r ∉ desired)).dedup) := by
      rw [mem_sortedRoles]
      have hbase : r ∈ (current.filter (fun r => r ∉ desired)).dedup := by
        rw [List.mem_dedup, List.mem_filter]
        exact ⟨hrcur, by rw [decide_eq_true_eq]; exact hrdes⟩
      split
      · rename_i hself
        rw [List.mem_filter]
        refine ⟨hbase, ?_⟩
        rw [decide_eq_true_eq]
        intro hradm
        exact hguard ⟨hself, hradm⟩
      · exact hbase
    intro habs
    exact hgone2 r hrmem (selected_id, r) habs ⟨rfl, rfl⟩
  · intro hself hadm_cur hadm_des
    have hadm0 : "administrador" ∈ (current.filter (fun r => r ∉ desired)).dedup := by
      rw [List.mem_dedup, List.mem_filter]
      exact ⟨hadm_cur, by rw [decide_eq_true_eq]; exact hadm_des⟩
    refine ⟨by rw [if_pos ⟨hself, hadm0⟩], ?_⟩
    intro hin
    apply hkeep2 (my_id, "administrador") (hmono1 _ hin)
    intro _
    rw [mem_sortedRoles, if_pos hself, List.mem_filter]
    rintro ⟨-, habs⟩
    exact absurd rfl (of_decide_eq_true habs)

def C9st : RoleState := [("a1", "administrador"), ("a1", "solicitante")]

theorem C9_witness :
    ∃ st' ws,
      admin_editar_save C9st "a1" "a1" ["administrador", "solicitante"] []
        = .ok (st', ws) ∧
      (∀ r ∈ ["administrador", "solicitante"], r ∉ ([] : List String) →
        ¬("a1" = "a1" ∧ r = "administrador") → ("a1", r) ∉ st') ∧
      ("a1" = "a1" → "administrador" ∈ ["administrador", "solicitante"] →
        "administrador" ∉ ([] : List String) →
        ws = ["No puedes quitarte el rol 'administrador' a ti mismo."] ∧
        (("a1", "administrador") ∈ C9st → ("a1", "administrador") ∈ st')) :=
  C9_role_edit_guard C9st "a1" "a1" ["administrador", "solicitante"] []
    (by decide) (by decide) (by decide)

end PagosFtf
